import Mathlib

/-!
Verification of the `scriptsrc` Go package of JOT85/script-src-generator.

The package computes the minimal Content-Security-Policy script-src directive
for a set of trusted HTML documents.  The core is:
  * `ScriptSrc` — the policy accumulator (Self flag, Hashes, Hosts, Others,
    DefaultHashAlgorithm);
  * `AddSrc` — classification of one script `src` reference string;
  * `AddInline` — digest token generation for inline script content;
  * `AddFromHTML` — the recursive HTML tree walk;
  * `ScriptSrcFromHTMLFiles` — multi-file aggregation;
  * `ScriptSrc.string` — the formatter (Go method `String`).

External collaborators (Go's `net/url` parser, the `crypto/sha512` and
`crypto/sha256` digests, and the file system together with the
`golang.org/x/net/html` parser) are modelled as an explicit `Collab`
record of functions supplied to each operation; `encoding/base64`'s
standard encoding is modelled concretely by `base64Encode`.  Go's in-place
mutation is modelled by explicit state passing: an operation returns the
(possibly partially mutated) accumulator together with an optional error
message, and a Go `panic` is modelled by `Option.none` at the outer layer.
-/

namespace ScriptSrcGen

/-! ## Data model -/

/-- Go `type HashAlgorithm uint8`; values 0..255 are representable. -/
abbrev HashAlgorithm := Nat

/-- Go constant `Sha512 HashAlgorithm = 0`. -/
def Sha512 : HashAlgorithm := 0

/-- Go constant `Sha256 HashAlgorithm = 1`. -/
def Sha256 : HashAlgorithm := 1

/-- The policy accumulator, Go struct `ScriptSrc`. -/
structure ScriptSrc where
  Self : Bool
  Hashes : List String
  DefaultHashAlgorithm : HashAlgorithm
  Hosts : List String
  Others : List String
deriving Repr, DecidableEq

/-- The Go zero value `ScriptSrc{}` used by the top-level entry points. -/
def ScriptSrc.empty : ScriptSrc :=
  { Self := false, Hashes := [], DefaultHashAlgorithm := 0, Hosts := [], Others := [] }

/-- The two components of a parsed URL that `AddSrc` reads (`src.Scheme`,
`src.Host`); Go's `url.URL` has more fields but the code observes only these.
`host` includes the port when present, as Go's `URL.Host` does. -/
structure URL where
  scheme : String
  host : String
deriving Repr, DecidableEq

/-- Node types of `golang.org/x/net/html`. -/
inductive NType where
  | errorNode | text | document | element | comment | doctype | raw
deriving Repr, DecidableEq

/-- One HTML attribute (key/value); namespace is never read by the walk. -/
structure Attr where
  key : String
  val : String
deriving Repr, DecidableEq

/-- A parsed HTML node.  Go's `html.Node` links children through
`FirstChild`/`NextSibling` pointers; the sibling chain of the children is
represented as the `children` list (`FirstChild = children.head?`, a node's
`NextSibling` is the next list entry). -/
inductive Node where
  | mk (ntype : NType) (data : String) (attr : List Attr) (children : List Node)
deriving Repr

def Node.ntype : Node → NType
  | .mk t _ _ _ => t

def Node.data : Node → String
  | .mk _ d _ _ => d

def Node.attr : Node → List Attr
  | .mk _ _ a _ => a

def Node.children : Node → List Node
  | .mk _ _ _ c => c

/-- Outcome of `os.Open` + `html.Parse` on one path (file-system collaborator):
the open step or the parse step can fail, otherwise a document tree results. -/
inductive FileParseResult where
  | openError (e : String)
  | parseError (e : String)
  | doc (root : Node)

/-- The external collaborators the core calls into: `url.Parse`, the raw
digest computations `sha512.Sum`/`sha256.Sum` (content bytes to digest
bytes; a Go string is its byte sequence, passed unmodified), and the
file-system + HTML-parser pipeline of `AddFromHTMLFile`. -/
structure Collab where
  parse : String → Except String URL
  sha512 : String → List Nat
  sha256 : String → List Nat
  parseFile : String → FileParseResult

/-! ## Base64 (model of Go `encoding/base64.StdEncoding.EncodeToString`) -/

/-- The standard base64 alphabet (RFC 4648). -/
def base64Alphabet : List Char :=
  "ABCDEFGHIJKLMNOPQRSTUVWXYZabcdefghijklmnopqrstuvwxyz0123456789+/".toList

/-- Character for a 6-bit group. -/
def base64Char (n : Nat) : Char := base64Alphabet.getD n 'A'

/-- Padding character. -/
def base64Pad : Char := '='

/-- Standard base64 of a byte list, with padding. -/
def base64Chunks : List Nat → List Char
  | [] => []
  | [b1] =>
    [base64Char (b1 / 4), base64Char (b1 % 4 * 16), base64Pad, base64Pad]
  | [b1, b2] =>
    [base64Char (b1 / 4), base64Char (b1 % 4 * 16 + b2 / 16),
     base64Char (b2 % 16 * 4), base64Pad]
  | b1 :: b2 :: b3 :: rest =>
    base64Char (b1 / 4) :: base64Char (b1 % 4 * 16 + b2 / 16) ::
    base64Char (b2 % 16 * 4 + b3 / 64) :: base64Char (b3 % 64) ::
    base64Chunks rest

/-- `base64.StdEncoding.EncodeToString` on a byte list. -/
def base64Encode (bs : List Nat) : String := String.mk (base64Chunks bs)

/-! ## Formatter (Go method `String`) -/

/-- The single-quote character (written by code point to keep source plain). -/
def squoteChar : Char := Char.ofNat 39

/-- Wrap a token in single quotes, as the formatter does for hash tokens. -/
def squote (s : String) : String :=
  String.singleton squoteChar ++ s ++ String.singleton squoteChar

/-- Go `func (scriptSrc *ScriptSrc) String() string`: build `srcs` by
appending `'self'` when `Self`, each hash wrapped in quotes (a `for` loop,
modelled by `List.foldl`), then `Hosts`, then `Others`; join with spaces. -/
def ScriptSrc.string (scriptSrc : ScriptSrc) : String :=
  let srcs : List String := []
  let srcs := if scriptSrc.Self then srcs ++ [squote "self"] else srcs
  let srcs := scriptSrc.Hashes.foldl (fun acc hash => acc ++ [squote hash]) srcs
  let srcs := srcs ++ scriptSrc.Hosts
  let srcs := srcs ++ scriptSrc.Others
  String.intercalate " " srcs

/-- The formatter as the specification words it: the `'self'` token if `Self`
is true, then each entry of `Hashes` in insertion order wrapped in single
quotes, then each entry of `Hosts` in insertion order unquoted, then each
entry of `Others` in list order unquoted, space-separated. -/
def formatSpec (s : ScriptSrc) : String :=
  String.intercalate " "
    ((if s.Self then [squote "self"] else []) ++
      s.Hashes.map (fun h => squote h) ++ s.Hosts ++ s.Others)

/-! ## Digest engine (Go method `AddInline`) -/

/-- The `hash` computed by the `switch scriptSrc.DefaultHashAlgorithm` in
`AddInline`; `none` is the `default:` branch, which panics in Go. -/
def hashToken (c : Collab) (alg : HashAlgorithm) (content : String) : Option String :=
  if alg = Sha512 then some ("sha512-" ++ base64Encode (c.sha512 content))
  else if alg = Sha256 then some ("sha256-" ++ base64Encode (c.sha256 content))
  else none

/-- Go `func (scriptSrc *ScriptSrc) AddInline(content string)`: compute the
token for the configured algorithm, panic (`none`) on an invalid algorithm
value, then insert into `Hashes` unless already present
(`slices.Contains` + `append`). -/
def AddInline (c : Collab) (scriptSrc : ScriptSrc) (content : String) :
    Option ScriptSrc :=
  match hashToken c scriptSrc.DefaultHashAlgorithm content with
  | none => none
  | some hash =>
    some (if scriptSrc.Hashes.contains hash then scriptSrc
          else { scriptSrc with Hashes := scriptSrc.Hashes ++ [hash] })

/-! ## Source classifier (Go method `AddSrc`) -/

/-- Go `func (scriptSrc *ScriptSrc) AddSrc(srcString string) error`.
Returns the (possibly updated) accumulator and an optional error message;
Go mutates in place, so the accumulator part is unchanged exactly on the
error paths, where the Go code returns before touching any field. -/
def AddSrc (c : Collab) (scriptSrc : ScriptSrc) (srcString : String) :
    ScriptSrc × Option String :=
  match c.parse srcString with
  | .error e =>
    (scriptSrc, some ("failed to parse script src " ++ srcString ++ ": " ++ e))
  | .ok src =>
    if src.scheme = "http" then
      (scriptSrc, some ("insecure script src: " ++ srcString))
    else if src.scheme = "https" then
      let host := "https://" ++ src.host
      (if scriptSrc.Hosts.contains host then scriptSrc
       else { scriptSrc with Hosts := scriptSrc.Hosts ++ [host] }, none)
    else if src.scheme = "" then
      ({ scriptSrc with Self := true }, none)
    else
      (scriptSrc, some ("failed to understand script src " ++ srcString))

/-! ## Tree walker (Go method `AddFromHTML`) -/

/-- The `for _, attr := range n.Attr` loop of `AddFromHTML` scanning for
`src` attributes, carrying the `hasSrc` flag.  On a second `src` it returns
the DuplicateAttribute error (`Except.error`, with the state as mutated so
far); on the first `src` it calls `AddSrc` and DISCARDS its returned error,
exactly as the Go code does (`scriptSrc.AddSrc(attr.Val)` with no
assignment), keeping the mutation. -/
def scanSrcAttrs (c : Collab) (scriptSrc : ScriptSrc) (hasSrc : Bool) :
    List Attr → Except (ScriptSrc × String) (ScriptSrc × Bool)
  | [] => .ok (scriptSrc, hasSrc)
  | a :: rest =>
    if a.key = "src" then
      if hasSrc then
        .error (scriptSrc, "script tag had a second src attribute: " ++ a.val)
      else
        scanSrcAttrs c (AddSrc c scriptSrc a.val).1 true rest
    else
      scanSrcAttrs c scriptSrc hasSrc rest

/-- The `if includeEventHandlers` loop of `AddFromHTML`: for every attribute
whose key starts with "on" (Go `strings.HasPrefix`), call `AddInline` with
its value; `none` is a propagated panic from `AddInline`. -/
def scanEventHandlers (c : Collab) (scriptSrc : ScriptSrc) :
    List Attr → Option ScriptSrc
  | [] => some scriptSrc
  | a :: rest =>
    if "on".isPrefixOf a.key then
      match AddInline c scriptSrc a.val with
      | none => none
      | some s => scanEventHandlers c s rest
    else
      scanEventHandlers c scriptSrc rest

mutual

/-- Go `func (scriptSrc *ScriptSrc) AddFromHTML(n *html.Node,
includeEventHandlers bool) error`.  The result is `none` for a Go panic,
otherwise the mutated accumulator together with `none` (success) or the
error message returned; on an error return the accumulator holds the
mutations made before the error, as Go's in-place mutation does. -/
def AddFromHTML (c : Collab) (incl : Bool) (scriptSrc : ScriptSrc) :
    Node → Option (ScriptSrc × Option String)
  | .mk ntype data attrs children =>
    if ntype = NType.element ∧ data = "script" then
      match scanSrcAttrs c scriptSrc false attrs with
      | .error (s, e) => some (s, some e)
      | .ok (s, true) => some (s, none)
      | .ok (s, false) =>
        match children with
        | [] => some (s, some "script tag had no src attribute and no content")
        | content :: rest =>
          if content.ntype ≠ NType.text then
            some (s, some "script tag had a child that was not a text node")
          else if rest.isEmpty = false ∨ content.children.isEmpty = false then
            some (s, some "script tag had multiple children")
          else
            match AddInline c s content.data with
            | none => none
            | some s2 => some (s2, none)
    else
      match (if incl then scanEventHandlers c scriptSrc attrs else some scriptSrc) with
      | none => none
      | some s => walkChildren c incl s children

/-- The `for c := n.FirstChild; c != nil; c = c.NextSibling` loop of
`AddFromHTML`: process children in order, stopping at the first error. -/
def walkChildren (c : Collab) (incl : Bool) (scriptSrc : ScriptSrc) :
    List Node → Option (ScriptSrc × Option String)
  | [] => some (scriptSrc, none)
  | n :: rest =>
    match AddFromHTML c incl scriptSrc n with
    | none => none
    | some (s, some e) => some (s, some e)
    | some (s, none) => walkChildren c incl s rest

end

/-! ## File-level entry points -/

/-- Go `func (scriptSrc *ScriptSrc) AddFromHTMLFile(path string,
includeEventHandlers bool) error`: open errors are returned as-is, HTML
parse errors are wrapped with the path, and walk errors are wrapped with
"failed to process". -/
def AddFromHTMLFile (c : Collab) (incl : Bool) (scriptSrc : ScriptSrc)
    (path : String) : Option (ScriptSrc × Option String) :=
  match c.parseFile path with
  | .openError e => some (scriptSrc, some e)
  | .parseError e =>
    some (scriptSrc, some ("failed to parse " ++ path ++ " as HTML: " ++ e))
  | .doc root =>
    match AddFromHTML c incl scriptSrc root with
    | none => none
    | some (s, none) => some (s, none)
    | some (s, some e) =>
      some (s, some ("failed to process " ++ path ++ ": " ++ e))

/-- Go `func ScriptSrcFromHTMLFile`: start from the zero-value accumulator
and walk one file; the accumulator is returned alongside the error, as the
Go function returns both values. -/
def ScriptSrcFromHTMLFile (c : Collab) (path : String) (incl : Bool) :
    Option (ScriptSrc × Option String) :=
  AddFromHTMLFile c incl ScriptSrc.empty path

/-- The `for _, path := range paths` loop of `ScriptSrcFromHTMLFiles`:
process every path in order into the one shared accumulator, collecting
each per-file error into `errs` (Go `errors = append(errors, err)`). -/
def filesLoop (c : Collab) (incl : Bool) :
    List String → ScriptSrc → List String → Option (ScriptSrc × List String)
  | [], scriptSrc, errs => some (scriptSrc, errs)
  | path :: rest, scriptSrc, errs =>
    match AddFromHTMLFile c incl scriptSrc path with
    | none => none
    | some (s, none) => filesLoop c incl rest s errs
    | some (s, some e) => filesLoop c incl rest s (errs ++ [e])

/-- Model of Go `fmt.Errorf("multiple errors: %v", errors)`: `%v` renders a
slice of errors as the messages, space-separated, in square brackets. -/
def aggregateErrors (errs : List String) : String :=
  "multiple errors: [" ++ String.intercalate " " errs ++ "]"

/-- Go `func ScriptSrcFromHTMLFiles(paths []string, includeEventHandlers
bool) (*ScriptSrc, error)`: run the loop from the zero-value accumulator;
no collected error returns the accumulator, exactly one collected error is
returned by itself (the accumulator pointer result is nil, modelled by
`Except.error`), and two or more are combined into one aggregate error. -/
def ScriptSrcFromHTMLFiles (c : Collab) (paths : List String) (incl : Bool) :
    Option (Except String ScriptSrc) :=
  match filesLoop c incl paths ScriptSrc.empty [] with
  | none => none
  | some (s, []) => some (.ok s)
  | some (_, [e]) => some (.error e)
  | some (_, errs) => some (.error (aggregateErrors errs))

/-! ## Concrete collaborator fixture

A concrete `Collab` used to instantiate the theorems at specific inputs.
`parse` records what Go's `url.Parse` returns on the references used below
(scheme and host components per its documented behaviour, e.g. a
protocol-relative reference parses with an empty scheme and a non-empty
host); the digest functions are deterministic stand-ins, since every
theorem below holds for arbitrary digest collaborators; `parseFile` is an
in-memory file system with two unreadable paths and two documents. -/

def goodDoc : Node :=
  .mk .document "" []
    [.mk .element "script" [⟨"src", "https://cdn.example.com/a.js"⟩] []]

def inlineDoc : Node :=
  .mk .document "" []
    [.mk .element "script" [] [.mk .text "alert(2)" [] []]]

def testCollab : Collab :=
  { parse := fun s =>
      if s = "http://example.com/x.js" then .ok ⟨"http", "example.com"⟩
      else if s = "https://cdn.example.com/a.js" then .ok ⟨"https", "cdn.example.com"⟩
      else if s = "//cdn.example.com/x.js" then .ok ⟨"", "cdn.example.com"⟩
      else if s = "foo.js" then .ok ⟨"", ""⟩
      else if s = "data:,x" then .ok ⟨"data", ""⟩
      else if s = "%zz" then .error "invalid URL escape"
      else .ok ⟨"", ""⟩,
    sha512 := fun s => [s.length % 256, 7, 42],
    sha256 := fun s => [s.length % 256, 9],
    parseFile := fun path =>
      if path = "bad.html" then .openError "open bad.html: no such file or directory"
      else if path = "bad2.html" then .openError "open bad2.html: no such file or directory"
      else if path = "good.html" then .doc goodDoc
      else if path = "inline.html" then .doc inlineDoc
      else .doc (.mk .document "" [] []) }

/-- A script element whose single `src` attribute is an insecure http URL. -/
def httpScriptNode : Node :=
  .mk .element "script" [⟨"src", "http://example.com/x.js"⟩] []

/-! ## Theorems -/

/-- Claim C1 (code bug).  The spec says the walk propagates any
classification error from `addSource`, but `AddFromHTML` discards the value
returned by `AddSrc` (`scriptSrc.AddSrc(attr.Val)` with no assignment): on
a script element whose single `src` is an http URL, `AddSrc` itself returns
the insecure-source error, yet the walk of that node returns success with
the policy unchanged — the error is silently swallowed. -/
theorem addFromHTML_drops_addSrc_error :
    (AddSrc testCollab ScriptSrc.empty "http://example.com/x.js").2 =
      some "insecure script src: http://example.com/x.js" ∧
    AddFromHTML testCollab true ScriptSrc.empty httpScriptNode =
      some (ScriptSrc.empty, none) := by
  exact ⟨rfl, rfl⟩

/-- Claim C7.  Whenever `url.Parse` yields scheme `http`, `AddSrc` returns
the insecure-source error and the accumulator is returned exactly as given:
`Self`, `Hosts`, `Hashes` and `Others` are untouched. -/
theorem addSrc_http_error_no_mutation (c : Collab) (s : ScriptSrc) (v : String)
    (u : URL) (hp : c.parse v = .ok u) (hs : u.scheme = "http") :
    AddSrc c s v = (s, some ("insecure script src: " ++ v)) := by
  simp [AddSrc, hp, hs]

/-- Witness for C7 at the http reference of the fixture. -/
theorem addSrc_http_error_no_mutation_witness :
    AddSrc testCollab ScriptSrc.empty "http://example.com/x.js" =
      (ScriptSrc.empty, some "insecure script src: http://example.com/x.js") :=
  addSrc_http_error_no_mutation testCollab ScriptSrc.empty
    "http://example.com/x.js" ⟨"http", "example.com"⟩ rfl rfl

/-- Claim C10.  Whenever `url.Parse` yields an empty scheme — also for a
protocol-relative reference, whose parsed host is non-empty — `AddSrc` only
sets `Self` and returns no error; `Hosts` is left exactly as it was, so the
external host of a protocol-relative reference is never allow-listed. -/
theorem addSrc_schemeless_sets_self_only (c : Collab) (s : ScriptSrc)
    (v : String) (u : URL) (hp : c.parse v = .ok u) (hs : u.scheme = "") :
    AddSrc c s v = ({ s with Self := true }, none) := by
  simp [AddSrc, hp, hs]

/-- Witness for C10 at the protocol-relative reference
"//cdn.example.com/x.js", which parses with empty scheme and host
"cdn.example.com": `Self` becomes true and `Hosts` stays empty. -/
theorem addSrc_schemeless_sets_self_only_witness :
    AddSrc testCollab ScriptSrc.empty "//cdn.example.com/x.js" =
      ({ ScriptSrc.empty with Self := true }, none) :=
  addSrc_schemeless_sets_self_only testCollab ScriptSrc.empty
    "//cdn.example.com/x.js" ⟨"", "cdn.example.com"⟩ rfl rfl

/-- Claim C2.  The full classification decision table of `AddSrc`: a parse
failure is wrapped and returned; an empty scheme sets `Self`; scheme
`https` appends `"https://" ++ host` (the parsed host component, port
included, path/query/fragment absent) to `Hosts` unless already present,
preserving first-seen order; scheme `http` is the insecure-source error;
any other scheme is the unsupported-source error.  On every error path the
accumulator is returned unchanged. -/
theorem addSrc_classification (c : Collab) (s : ScriptSrc) (v : String) :
    (∀ e, c.parse v = .error e →
      AddSrc c s v = (s, some ("failed to parse script src " ++ v ++ ": " ++ e))) ∧
    (∀ u, c.parse v = .ok u → u.scheme = "" →
      AddSrc c s v = ({ s with Self := true }, none)) ∧
    (∀ u, c.parse v = .ok u → u.scheme = "https" →
      AddSrc c s v =
        (if s.Hosts.contains ("https://" ++ u.host) then s
         else { s with Hosts := s.Hosts ++ ["https://" ++ u.host] }, none)) ∧
    (∀ u, c.parse v = .ok u → u.scheme = "http" →
      AddSrc c s v = (s, some ("insecure script src: " ++ v))) ∧
    (∀ u, c.parse v = .ok u → u.scheme ≠ "" → u.scheme ≠ "https" → u.scheme ≠ "http" →
      AddSrc c s v = (s, some ("failed to understand script src " ++ v))) := by
  refine ⟨?_, ?_, ?_, ?_, ?_⟩
  · intro e hp
    simp [AddSrc, hp]
  · intro u hp hs
    simp [AddSrc, hp, hs]
  · intro u hp hs
    simp [AddSrc, hp, hs]
  · intro u hp hs
    simp [AddSrc, hp, hs]
  · intro u hp h1 h2 h3
    simp [AddSrc, hp, h1, h2, h3]

/-- Witness for C2, exercising the https row of the decision table at a
fresh host: the host origin is appended, path stripped. -/
theorem addSrc_classification_witness :
    AddSrc testCollab ScriptSrc.empty "https://cdn.example.com/a.js" =
      (if ScriptSrc.empty.Hosts.contains ("https://" ++ "cdn.example.com") then
        ScriptSrc.empty
       else { ScriptSrc.empty with
                Hosts := ScriptSrc.empty.Hosts ++ ["https://" ++ "cdn.example.com"] },
       none) :=
  (addSrc_classification testCollab ScriptSrc.empty
      "https://cdn.example.com/a.js").2.2.1 ⟨"https", "cdn.example.com"⟩ rfl rfl

/-- The quote-and-append loop over `Hashes` is the mapped quotes appended
to the accumulator built so far. -/
lemma foldl_append_squote (l : List String) (init : List String) :
    l.foldl (fun acc hash => acc ++ [squote hash]) init = init ++ l.map squote := by
  induction l generalizing init with
  | nil => simp
  | cons x xs ih => simp [ih]

/-- Claim C3.  The formatter concatenates, space-separated, in this fixed
order: the quoted `self` token if `Self` is true; each entry of `Hashes` in
insertion order, single-quoted; each entry of `Hosts` in insertion order,
unquoted; each entry of `Others` in list order, unquoted.  A policy with
`Self` false and all three sequences empty formats to the empty string. -/
theorem string_format_order (s : ScriptSrc) :
    s.string = formatSpec s ∧
    (s.Self = false → s.Hashes = [] → s.Hosts = [] → s.Others = [] →
      s.string = "") := by
  constructor
  · cases hS : s.Self <;>
      simp [ScriptSrc.string, formatSpec, hS, foldl_append_squote]
  · intro h1 h2 h3 h4
    simp [ScriptSrc.string, h1, h2, h3, h4, String.intercalate]

/-- A sample populated policy, used to instantiate the formatter claim. -/
def samplePolicy : ScriptSrc :=
  { Self := true, Hashes := ["sha512-AAA"], DefaultHashAlgorithm := 0,
    Hosts := ["https://cdn.example.com"], Others := ["x"] }

/-- Witness for C3: the zero policy formats to the empty string, and a
sample policy formats as the spec-side description. -/
theorem string_format_order_witness :
    ScriptSrc.empty.string = "" ∧ samplePolicy.string = formatSpec samplePolicy :=
  ⟨(string_format_order ScriptSrc.empty).2 rfl rfl rfl rfl,
   (string_format_order samplePolicy).1⟩

/-- Claim C8.  For each supported algorithm value the inline token is the
algorithm's canonical name, a hyphen, and the standard base64 (with
padding) of the digest collaborator applied to the content itself — the
content is passed unmodified, with no trimming or re-encoding — and
`AddInline` does not reach the fatal `default:` branch. -/
theorem addInline_token_shape (c : Collab) (s : ScriptSrc) (content : String) :
    (s.DefaultHashAlgorithm = Sha512 →
      hashToken c s.DefaultHashAlgorithm content =
        some ("sha512-" ++ base64Encode (c.sha512 content)) ∧
      (AddInline c s content).isSome = true) ∧
    (s.DefaultHashAlgorithm = Sha256 →
      hashToken c s.DefaultHashAlgorithm content =
        some ("sha256-" ++ base64Encode (c.sha256 content)) ∧
      (AddInline c s content).isSome = true) := by
  constructor
  · intro h
    have htok : hashToken c s.DefaultHashAlgorithm content =
        some ("sha512-" ++ base64Encode (c.sha512 content)) := by
      simp [hashToken, h, Sha512, Sha256]
    refine ⟨htok, ?_⟩
    simp only [AddInline, htok]
    cases hc : List.contains s.Hashes ("sha512-" ++ base64Encode (c.sha512 content)) <;>
      simp [hc]
  · intro h
    have htok : hashToken c s.DefaultHashAlgorithm content =
        some ("sha256-" ++ base64Encode (c.sha256 content)) := by
      simp [hashToken, h, Sha512, Sha256]
    refine ⟨htok, ?_⟩
    simp only [AddInline, htok]
    cases hc : List.contains s.Hashes ("sha256-" ++ base64Encode (c.sha256 content)) <;>
      simp [hc]

/-- Witness for C8 at the default (zero-value) algorithm, Sha512. -/
theorem addInline_token_shape_witness :
    hashToken testCollab ScriptSrc.empty.DefaultHashAlgorithm "alert(2)" =
      some ("sha512-" ++ base64Encode (testCollab.sha512 "alert(2)")) ∧
    (AddInline testCollab ScriptSrc.empty "alert(2)").isSome = true :=
  (addInline_token_shape testCollab ScriptSrc.empty "alert(2)").1 rfl

/-- Claim C9.  On a script element with two `src` attributes the walk
returns the duplicate-attribute error naming the second value, but only
after the first value has been classified and applied: the state returned
with the error is exactly the accumulator `AddSrc` produced for the first
value.  The closed conjunct shows the non-atomicity concretely: with an
https first src the host is already appended when the walk fails. -/
theorem walk_duplicate_src_after_first_applied :
    (∀ (c : Collab) (incl : Bool) (s : ScriptSrc) (v1 v2 : String)
        (children : List Node),
      AddFromHTML c incl s (.mk .element "script" [⟨"src", v1⟩, ⟨"src", v2⟩] children) =
        some ((AddSrc c s v1).1,
          some ("script tag had a second src attribute: " ++ v2))) ∧
    AddFromHTML testCollab true ScriptSrc.empty
        (.mk .element "script"
          [⟨"src", "https://cdn.example.com/a.js"⟩, ⟨"src", "foo.js"⟩] []) =
      some ({ ScriptSrc.empty with Hosts := ["https://cdn.example.com"] },
        some "script tag had a second src attribute: foo.js") := by
  constructor
  · intro c incl s v1 v2 children
    simp [AddFromHTML, scanSrcAttrs]
  · rfl

/-- Claim C4.  Both insertion operations are idempotent with respect to
their deduplicated sequences.  Adding the same inline content twice leaves
the accumulator of the first call unchanged, and when the token was not
present before, exactly one entry for it results; adding the same https
reference twice likewise leaves exactly one entry for its host origin. -/
theorem addInline_addSrc_idempotent (c : Collab) (s : ScriptSrc) (content v : String) :
    (∀ tok s1, hashToken c s.DefaultHashAlgorithm content = some tok →
      AddInline c s content = some s1 →
        AddInline c s1 content = some s1 ∧
        (tok ∉ s.Hashes → s1.Hashes.count tok = 1)) ∧
    (∀ u, c.parse v = .ok u → u.scheme = "https" →
      AddSrc c (AddSrc c s v).1 v = ((AddSrc c s v).1, none) ∧
      ("https://" ++ u.host ∉ s.Hosts →
        ((AddSrc c s v).1).Hosts.count ("https://" ++ u.host) = 1)) := by
  constructor
  · intro tok s1 htok hadd
    rw [AddInline, htok] at hadd
    by_cases hc : tok ∈ s.Hashes
    · simp [hc] at hadd
      subst hadd
      exact ⟨by rw [AddInline, htok]; simp [hc], fun hf => absurd hc hf⟩
    · simp [hc] at hadd
      subst hadd
      constructor
      · simp [AddInline, htok]
      · intro hf
        simp [List.count_append, List.count_eq_zero.mpr hc]
  · intro u hp hs
    have h1 : AddSrc c s v =
        (if s.Hosts.contains ("https://" ++ u.host) then s
         else { s with Hosts := s.Hosts ++ ["https://" ++ u.host] }, none) := by
      simp [AddSrc, hp, hs]
    by_cases hc : "https://" ++ u.host ∈ s.Hosts
    · simp [hc] at h1
      rw [h1]
      exact ⟨by simp [AddSrc, hp, hs, hc], fun hf => absurd hc hf⟩
    · simp [hc] at h1
      rw [h1]
      constructor
      · simp [AddSrc, hp, hs]
      · intro hf
        simp [List.count_append, List.count_eq_zero.mpr hc]

/-- The token the fixture produces for the inline content of
`inlineDoc`, under the default algorithm. -/
def tok512 : String := "sha512-" ++ base64Encode (testCollab.sha512 "alert(2)")

/-- The accumulator after one `AddInline` of that content. -/
def inlineOnce : ScriptSrc := { ScriptSrc.empty with Hashes := [tok512] }

/-- Witness for C4: a second identical `AddInline` and a second identical
https `AddSrc` are no-ops, each leaving a single entry. -/
theorem addInline_addSrc_idempotent_witness :
    (AddInline testCollab inlineOnce "alert(2)" = some inlineOnce ∧
      inlineOnce.Hashes.count tok512 = 1) ∧
    (AddSrc testCollab
        (AddSrc testCollab ScriptSrc.empty "https://cdn.example.com/a.js").1
        "https://cdn.example.com/a.js" =
      ((AddSrc testCollab ScriptSrc.empty "https://cdn.example.com/a.js").1, none) ∧
      ((AddSrc testCollab ScriptSrc.empty "https://cdn.example.com/a.js").1).Hosts.count
        ("https://" ++ "cdn.example.com") = 1) := by
  have h := addInline_addSrc_idempotent testCollab ScriptSrc.empty "alert(2)"
    "https://cdn.example.com/a.js"
  have h1 := h.1 tok512 inlineOnce rfl rfl
  have h2 := h.2 ⟨"https", "cdn.example.com"⟩ rfl rfl
  exact ⟨⟨h1.1, h1.2 (by simp [ScriptSrc.empty])⟩,
    ⟨h2.1, h2.2 (by simp [ScriptSrc.empty])⟩⟩

/-- When no attribute is named `src`, the scan finishes with state and flag
unchanged. -/
lemma scanSrcAttrs_no_src (c : Collab) (s : ScriptSrc) (b : Bool) :
    ∀ attrs, (∀ a ∈ attrs, a.key ≠ "src") →
      scanSrcAttrs c s b attrs = .ok (s, b)
  | [], _ => rfl
  | a :: rest, h => by
    rw [scanSrcAttrs, if_neg (h a (List.mem_cons_self a rest))]
    exact scanSrcAttrs_no_src c s b rest (fun x hx => h x (List.mem_cons_of_mem a hx))

/-- Claim C5.  On a script element with no `src` attribute the walk
requires exactly one child which is a text node with no children of its
own and no following sibling: no children at all, a non-text first child,
or multiple children each fail with the corresponding invalid-inline-script
error with the accumulator untouched; on the single-text-child shape it
calls `AddInline` with that text node's exact content and descends no
further. -/
theorem walk_inline_script_validation (c : Collab) (incl : Bool) (s : ScriptSrc)
    (attrs : List Attr) (children : List Node)
    (hns : ∀ a ∈ attrs, a.key ≠ "src") :
    (children = [] →
      AddFromHTML c incl s (.mk .element "script" attrs children) =
        some (s, some "script tag had no src attribute and no content")) ∧
    (∀ n0 rest, children = n0 :: rest → n0.ntype ≠ .text →
      AddFromHTML c incl s (.mk .element "script" attrs children) =
        some (s, some "script tag had a child that was not a text node")) ∧
    (∀ n0 rest, children = n0 :: rest → n0.ntype = .text →
      rest ≠ [] ∨ n0.children ≠ [] →
      AddFromHTML c incl s (.mk .element "script" attrs children) =
        some (s, some "script tag had multiple children")) ∧
    (∀ n0, children = [n0] → n0.ntype = .text → n0.children = [] →
      AddFromHTML c incl s (.mk .element "script" attrs children) =
        Option.map (fun s2 => (s2, none)) (AddInline c s n0.data)) := by
  have hscan := scanSrcAttrs_no_src c s false attrs hns
  refine ⟨?_, ?_, ?_, ?_⟩
  · intro hch
    subst hch
    rw [AddFromHTML, if_pos ⟨rfl, rfl⟩, hscan]
  · intro n0 rest hch ht
    subst hch
    rw [AddFromHTML, if_pos ⟨rfl, rfl⟩, hscan]
    simp [ht]
  · intro n0 rest hch ht hmulti
    subst hch
    rw [AddFromHTML, if_pos ⟨rfl, rfl⟩, hscan]
    have h1 : rest.isEmpty = false ∨ n0.children.isEmpty = false := by
      rcases hmulti with h | h
      · exact Or.inl (by simpa using h)
      · exact Or.inr (by simpa using h)
    rcases h1 with h2 | h2
    · simp [ht, h2]
    · simp [ht, h2]
  · intro n0 hch ht hc0
    subst hch
    rw [AddFromHTML, if_pos ⟨rfl, rfl⟩, hscan]
    cases hA : AddInline c s n0.data <;> simp [ht, hc0, hA]

/-- Witness for C5: a script tag with zero `src` attributes and zero
children makes the walk fail with the no-content error. -/
theorem walk_inline_script_validation_witness :
    AddFromHTML testCollab true ScriptSrc.empty (.mk .element "script" [] []) =
      some (ScriptSrc.empty, some "script tag had no src attribute and no content") :=
  (walk_inline_script_validation testCollab true ScriptSrc.empty [] []
    (by simp)).1 rfl

/-- Counterexample to C6 as stated.  With exactly one failing file the
collected per-file errors are `[e]`, but `ScriptSrcFromHTMLFiles` returns
`e` itself, not a single aggregate error wrapping the collected list. -/
theorem files_single_error_not_aggregated :
    ScriptSrcFromHTMLFiles testCollab ["bad.html"] true =
      some (.error "open bad.html: no such file or directory") ∧
    "open bad.html: no such file or directory" ≠
      aggregateErrors ["open bad.html: no such file or directory"] :=
  ⟨rfl, by decide⟩

/-- Claim C6 as amended.  Multi-file processing never short-circuits: the
loop over a concatenation of path lists always continues into the second
list with the state and error list the first list produced, whether or not
errors were collected, so every path is processed into the one shared
policy.  If no file failed the completed policy is returned; if exactly one
file failed that error is returned by itself; if two or more failed all
collected errors are returned together as a single aggregate error. -/
theorem scriptSrcFromHTMLFiles_collects_errors (c : Collab) (incl : Bool)
    (as bs : List String) :
    (∀ s errs, filesLoop c incl (as ++ bs) s errs =
      (filesLoop c incl as s errs).bind (fun r => filesLoop c incl bs r.1 r.2)) ∧
    (∀ s1, filesLoop c incl as ScriptSrc.empty [] = some (s1, []) →
      ScriptSrcFromHTMLFiles c as incl = some (.ok s1)) ∧
    (∀ s1 e, filesLoop c incl as ScriptSrc.empty [] = some (s1, [e]) →
      ScriptSrcFromHTMLFiles c as incl = some (.error e)) ∧
    (∀ s1 e1 e2 es, filesLoop c incl as ScriptSrc.empty [] = some (s1, e1 :: e2 :: es) →
      ScriptSrcFromHTMLFiles c as incl =
        some (.error (aggregateErrors (e1 :: e2 :: es)))) := by
  refine ⟨?_, ?_, ?_, ?_⟩
  · intro s errs
    induction as generalizing s errs with
    | nil => rfl
    | cons p rest ih =>
      cases h : AddFromHTMLFile c incl s p with
      | none => simp [filesLoop, h]
      | some r =>
        cases r with
        | mk s2 eo =>
          cases eo with
          | none => simp [filesLoop, h, ih]
          | some e => simp [filesLoop, h, ih]
  · intro s1 hl
    rw [ScriptSrcFromHTMLFiles, hl]
  · intro s1 e hl
    rw [ScriptSrcFromHTMLFiles, hl]
  · intro s1 e1 e2 es hl
    rw [ScriptSrcFromHTMLFiles, hl]

/-- Witness for C6 as amended: two unreadable files produce one aggregate
error holding both per-file errors. -/
theorem scriptSrcFromHTMLFiles_collects_errors_witness :
    ScriptSrcFromHTMLFiles testCollab ["bad.html", "bad2.html"] true =
      some (.error (aggregateErrors
        ["open bad.html: no such file or directory",
         "open bad2.html: no such file or directory"])) :=
  (scriptSrcFromHTMLFiles_collects_errors testCollab true
    ["bad.html", "bad2.html"] []).2.2.2 ScriptSrc.empty
    "open bad.html: no such file or directory"
    "open bad2.html: no such file or directory" [] rfl

end ScriptSrcGen
